import Mathlib

/-!
Verification of the embodiment-configuration resolution logic of the
inference-server launcher (`scripts/inference_service.py`).

The script's interaction with the outside world (filesystem existence
checks, the hub client's `repo_exists` and `snapshot_download`, file
reading, JSON parsing) is abstracted as a `World` of effectful primitives,
each returning `Except Unit` to model Python exceptions.  Python `str`
is modelled by `String`, Python dictionaries produced by `json.loads`
by the `JsonValue` type below, where calling `.get`/`.keys()` on a
non-dictionary value raises (returns `Except.error`).
-/

/-- A parsed JSON document, as produced by `json.loads`. -/
inductive JsonValue where
  | obj (fields : List (String × JsonValue))
  | arr (items : List JsonValue)
  | str (s : String)
  | num (n : Int)
  | bool (b : Bool)
  | null

/-- Python `d.get(key, default)`: on a dictionary, the bound value or the
default; on any other value, raises `AttributeError` (modelled as error). -/
def dictGet (j : JsonValue) (key : String) (defaultValue : JsonValue) :
    Except Unit JsonValue :=
  match j with
  | JsonValue.obj fields =>
    match fields.lookup key with
    | some v => Except.ok v
    | none => Except.ok defaultValue
  | _ => Except.error ()

/-- Python `list(d.keys())`: insertion-ordered key list of a dictionary;
raises on any non-dictionary value. -/
def dictKeys (j : JsonValue) : Except Unit (List String) :=
  match j with
  | JsonValue.obj fields => Except.ok (fields.map Prod.fst)
  | _ => Except.error ()

/-- Python `s.startswith(pre)`. -/
def startswith (s pre : String) : Bool :=
  pre.data.isPrefixOf s.data

/-- Python `c in s` for a single-character needle `c`. -/
def containsChar (s : String) (c : Char) : Bool :=
  s.data.contains c

/-- `is_huggingface_repo` from the script (defined identically at module
level and inside `main`).  `path_exists` abstracts `os.path.exists`. -/
def is_huggingface_repo (path_exists : String → Bool) (path : String) : Bool :=
  containsChar path '/' &&
    !(startswith path "./") &&
    !(startswith path "/") &&
    !(path_exists path)

/-- The effectful primitives the script calls into; `Except.error ()`
models the primitive raising an exception. -/
structure World where
  path_exists : String → Bool
  repo_exists : String → Except Unit Bool
  snapshot_download : String → Except Unit String
  read_text : String → Except Unit String
  json_loads : String → Except Unit JsonValue

/-- The metadata-document acquisition performed inside the `try` block of
`detect_model_config`: locate `experiment_cfg/metadata.json` (downloading
the snapshot first for repo ids), read it and parse it as JSON. -/
def loadMetadataDoc (w : World) (model_path : String) : Except Unit JsonValue :=
  match
    (if is_huggingface_repo w.path_exists model_path then
      match w.snapshot_download model_path with
      | Except.error e => Except.error e
      | Except.ok snapshot => Except.ok (snapshot ++ "/experiment_cfg/metadata.json")
    else
      Except.ok (model_path ++ "/experiment_cfg/metadata.json")) with
  | Except.error e => Except.error e
  | Except.ok metadata_path =>
    match w.read_text metadata_path with
    | Except.error e => Except.error e
    | Except.ok txt => w.json_loads txt

/-- The field-extraction part of the `try` block of `detect_model_config`:
`metadata.get('modalities', {}).get('video', {}).keys()` and the action
keys, with `num_arms = len([k for k in action_keys if k.startswith('arm')]) or 1`. -/
def extractConfig (metadata : JsonValue) : Except Unit (Nat × Nat × List String) :=
  match dictGet metadata "modalities" (JsonValue.obj []) with
  | Except.error e => Except.error e
  | Except.ok modalities =>
    match dictGet modalities "video" (JsonValue.obj []) with
    | Except.error e => Except.error e
    | Except.ok video =>
      match dictKeys video with
      | Except.error e => Except.error e
      | Except.ok video_keys =>
        match dictGet modalities "action" (JsonValue.obj []) with
        | Except.error e => Except.error e
        | Except.ok action =>
          match dictKeys action with
          | Except.error e => Except.error e
          | Except.ok action_keys =>
            let num_cams := video_keys.length
            let arm_keys := action_keys.filter (fun k => startswith k "arm")
            let num_arms := if arm_keys.length = 0 then 1 else arm_keys.length
            Except.ok (num_arms, num_cams, video_keys)

/-- `detect_model_config(model_path, default_num_cams)`: the whole `try`
body, with any raised exception mapped to the fallback triple. -/
def detect_model_config (w : World) (model_path : String)
    (default_num_cams : Nat) : Nat × Nat × List String :=
  match
    (match loadMetadataDoc w model_path with
     | Except.error e => Except.error e
     | Except.ok metadata => extractConfig metadata) with
  | Except.ok r => r
  | Except.error _ => (1, default_num_cams, [])

/-- `validate_huggingface_repo`: `repo_exists` when it answers, `True`
(assume valid) when the check itself raises. -/
def validate_huggingface_repo (w : World) (repo_id : String) : Bool :=
  match w.repo_exists repo_id with
  | Except.ok b => b
  | Except.error _ => true

/-- `state_keys = [f"state.arm_{i}" for i in range(args.num_arms)]`. -/
def state_keys (num_arms : Nat) : List String :=
  (List.range num_arms).map (fun i => "state.arm_" ++ toString i)

/-- `action_keys = [f"action.arm_{i}" for i in range(args.num_arms)]`. -/
def action_keys (num_arms : Nat) : List String :=
  (List.range num_arms).map (fun i => "action.arm_" ++ toString i)

/-- `f"video.{k}" if not k.startswith('video.') else k`. -/
def prefixVideoKey (k : String) : String :=
  if startswith k "video." then k else "video." ++ k

/-- The data-config generator chosen by `main`: explicit names
(`ConfigGeneratorFromNames`) or the indexed generator (`ConfigGenerator`). -/
inductive DataGen where
  | named (video_keys state_keys action_keys : List String)
  | indexed (num_arms num_cams : Nat)
deriving DecidableEq

/-- Outcome of the resolution part of `main`: a raised
`FileNotFoundError`, or the constructed data-config generator. -/
inductive LaunchResult where
  | notFound (msg : String)
  | ok (g : DataGen)
deriving DecidableEq

/-- The tail of `main` after validation: call `detect_model_config` and
build the generator (`if video_keys: ConfigGeneratorFromNames(...) else
ConfigGenerator(num_arms, num_cams)`). -/
def buildDataGen (w : World) (model_path : String) (num_cams_hint : Nat) :
    LaunchResult :=
  match detect_model_config w model_path num_cams_hint with
  | (num_arms, num_cams, video_keys) =>
    if video_keys ≠ [] then
      LaunchResult.ok (DataGen.named (video_keys.map prefixVideoKey)
        (state_keys num_arms) (action_keys num_arms))
    else
      LaunchResult.ok (DataGen.indexed num_arms num_cams)

/-- The resolution logic of `main`: classify the model reference, validate
it (raising `FileNotFoundError` on confirmed absence), then detect the
configuration and build the generator.  `num_cams_hint` is `args.num_cams`. -/
def mainResolve (w : World) (model_path : String) (num_cams_hint : Nat) :
    LaunchResult :=
  if is_huggingface_repo w.path_exists model_path then
    if !validate_huggingface_repo w model_path then
      LaunchResult.notFound
        ("HuggingFace repository " ++ model_path ++ " not found or not accessible.")
    else
      buildDataGen w model_path num_cams_hint
  else if !w.path_exists model_path then
    LaunchResult.notFound ("Local model path " ++ model_path ++ " not found.")
  else
    buildDataGen w model_path num_cams_hint

/-! Concrete worlds used to instantiate the theorems below. -/

/-- A world with a local model whose metadata names one camera and one arm. -/
def wFront : World where
  path_exists := fun _ => true
  repo_exists := fun _ => Except.ok true
  snapshot_download := fun _ => Except.error ()
  read_text := fun _ => Except.ok "{}"
  json_loads := fun _ => Except.ok (JsonValue.obj
    [("modalities", JsonValue.obj
      [("video", JsonValue.obj [("front", JsonValue.null)]),
       ("action", JsonValue.obj [("arm_0", JsonValue.null)])])])

/-- A world with a local model whose metadata parses as the empty JSON object. -/
def wEmptyJson : World where
  path_exists := fun _ => true
  repo_exists := fun _ => Except.ok true
  snapshot_download := fun _ => Except.error ()
  read_text := fun _ => Except.ok "{}"
  json_loads := fun _ => Except.ok (JsonValue.obj [])

/-- A world with a local model whose metadata file cannot be read. -/
def wReadFail : World where
  path_exists := fun _ => true
  repo_exists := fun _ => Except.ok true
  snapshot_download := fun _ => Except.error ()
  read_text := fun _ => Except.error ()
  json_loads := fun _ => Except.error ()

/-- A world where nothing exists locally, the remote existence check itself
raises, and downloading the snapshot fails. -/
def wSnapFail : World where
  path_exists := fun _ => false
  repo_exists := fun _ => Except.error ()
  snapshot_download := fun _ => Except.error ()
  read_text := fun _ => Except.error ()
  json_loads := fun _ => Except.error ()

/-- A world where nothing exists locally and the remote existence check
answers that the repository does not exist. -/
def wRepoMissing : World where
  path_exists := fun _ => false
  repo_exists := fun _ => Except.ok false
  snapshot_download := fun _ => Except.error ()
  read_text := fun _ => Except.error ()
  json_loads := fun _ => Except.error ()

/-- A world with a local model whose metadata has action channels but no
video section at all. -/
def wNoVideo : World where
  path_exists := fun _ => true
  repo_exists := fun _ => Except.ok true
  snapshot_download := fun _ => Except.error ()
  read_text := fun _ => Except.ok "{}"
  json_loads := fun _ => Except.ok (JsonValue.obj
    [("modalities", JsonValue.obj
      [("action", JsonValue.obj
        [("arm_0", JsonValue.null), ("arm_1", JsonValue.null)])])])

/-- A metadata document with one video channel and three action channels,
two of which are arm channels. -/
def jSample : JsonValue := JsonValue.obj
  [("modalities", JsonValue.obj
    [("video", JsonValue.obj [("front", JsonValue.null)]),
     ("action", JsonValue.obj
       [("arm_0", JsonValue.null), ("arm_1", JsonValue.null),
        ("gripper", JsonValue.null)])])]

/-! Helper lemmas shared by the claim theorems. -/

theorem string_data_append (s t : String) : (s ++ t).data = s.data ++ t.data := rfl

theorem startswith_append_left (p s : String) : startswith (p ++ s) p = true := by
  simp [startswith, string_data_append, List.isPrefixOf_iff_prefix]

theorem prefixVideoKey_twice (k : String) :
    prefixVideoKey (prefixVideoKey k) = prefixVideoKey k := by
  cases h : startswith k "video." with
  | true => simp [prefixVideoKey, h]
  | false => simp [prefixVideoKey, h, startswith_append_left]

theorem extractConfig_shape (j : JsonValue) (r : Nat × Nat × List String)
    (h : extractConfig j = Except.ok r) : 1 ≤ r.1 ∧ r.2.1 = r.2.2.length := by
  unfold extractConfig at h
  cases hmo : dictGet j "modalities" (JsonValue.obj []) with
  | error e => rw [hmo] at h; exact Except.noConfusion h
  | ok modalities =>
    rw [hmo] at h
    dsimp only at h
    cases hv : dictGet modalities "video" (JsonValue.obj []) with
    | error e => rw [hv] at h; exact Except.noConfusion h
    | ok video =>
      rw [hv] at h
      dsimp only at h
      cases hvk : dictKeys video with
      | error e => rw [hvk] at h; exact Except.noConfusion h
      | ok video_keys =>
        rw [hvk] at h
        dsimp only at h
        cases ha : dictGet modalities "action" (JsonValue.obj []) with
        | error e => rw [ha] at h; exact Except.noConfusion h
        | ok action =>
          rw [ha] at h
          dsimp only at h
          cases hak : dictKeys action with
          | error e => rw [hak] at h; exact Except.noConfusion h
          | ok action_keys =>
            rw [hak] at h
            dsimp only at h
            injection h with h
            rw [← h]
            constructor
            · by_cases hz :
                (action_keys.filter (fun k => startswith k "arm")).length = 0
              · simp [hz]
              · simp [hz]; omega
            · rfl

theorem buildDataGen_eq_ite (w : World) (p : String) (d : Nat) :
    buildDataGen w p d =
      (if (detect_model_config w p d).2.2 ≠ [] then
        LaunchResult.ok (DataGen.named
          ((detect_model_config w p d).2.2.map prefixVideoKey)
          (state_keys (detect_model_config w p d).1)
          (action_keys (detect_model_config w p d).1))
      else
        LaunchResult.ok (DataGen.indexed (detect_model_config w p d).1
          (detect_model_config w p d).2.1)) := rfl

theorem buildDataGen_not_notFound (w : World) (p : String) (d : Nat)
    (msg : String) : buildDataGen w p d ≠ LaunchResult.notFound msg := by
  rw [buildDataGen_eq_ite]
  split <;> simp

theorem mainResolve_ok_imp_build (w : World) (p : String) (d : Nat) (g : DataGen)
    (h : mainResolve w p d = LaunchResult.ok g) :
    buildDataGen w p d = LaunchResult.ok g := by
  unfold mainResolve at h
  split at h
  · split at h
    · exact absurd h (by simp)
    · exact h
  · split at h
    · exact absurd h (by simp)
    · exact h

theorem detect_eq_of_ok (w : World) (p : String) (d : Nat) (m : JsonValue)
    (r : Nat × Nat × List String) (hm : loadMetadataDoc w p = Except.ok m)
    (he : extractConfig m = Except.ok r) : detect_model_config w p d = r := by
  unfold detect_model_config
  simp only [hm, he]

theorem detect_eq_fallback (w : World) (p : String) (d : Nat)
    (hm : loadMetadataDoc w p = Except.error ()) :
    detect_model_config w p d = (1, d, []) := by
  unfold detect_model_config
  rw [hm]

/-- C2: classification of a model reference string is total and
deterministic: a string is classified as a remote repository id
(`is_huggingface_repo` returns true) exactly when it contains a separator,
does not start with the literal prefixes "./" or "/", and does not exist
locally; in every other case (in particular whenever the string exists as
a local filesystem path, separator or not) it is classified as a local
path. -/
theorem is_huggingface_repo_rule (pe : String → Bool) (path : String) :
    is_huggingface_repo pe path = true ↔
      (containsChar path '/' = true ∧ startswith path "./" = false ∧
       startswith path "/" = false ∧ pe path = false) := by
  simp [is_huggingface_repo, Bool.and_eq_true, Bool.not_eq_true', and_assoc]

/-- C9: a parent-relative reference such as "../ns/name" — a string
starting with "../" that contains a further separator and does not exist
locally — is classified as a remote repository id: only the literal
prefixes "./" and "/" are treated as local-path markers. -/
theorem parent_relative_classified_remote (pe : String → Bool) (rest : String)
    (_h1 : containsChar rest '/' = true) (h2 : pe ("../" ++ rest) = false) :
    is_huggingface_repo pe ("../" ++ rest) = true := by
  show (containsChar ("../" ++ rest) '/' &&
    !(startswith ("../" ++ rest) "./") &&
    !(startswith ("../" ++ rest) "/") &&
    !(pe ("../" ++ rest))) = true
  rw [h2]
  rfl

theorem parent_relative_classified_remote_witness :
    containsChar "ns/name" '/' = true ∧
      is_huggingface_repo (fun _ => false) ("../" ++ "ns/name") = true :=
  ⟨rfl, parent_relative_classified_remote (fun _ => false) "ns/name" rfl rfl⟩

/-- C8: video-key prefixing in the modality configuration builder is
idempotent: prefixing each channel name with "video." unless already so
prefixed gives the same key list whether applied once or twice, so
already-prefixed and unprefixed inputs yield the same Named key set. -/
theorem video_prefixing_idempotent (ks : List String) :
    (ks.map prefixVideoKey).map prefixVideoKey = ks.map prefixVideoKey := by
  simp [List.map_map, Function.comp, prefixVideoKey_twice]

/-- C7: every triple `detect_model_config` can return satisfies the
EmbodimentConfig invariant: `num_arms ≥ 1` on every path including the
fallback, and whenever `video_keys` is non-empty, `num_cams` equals the
length of `video_keys`. -/
theorem embodiment_config_invariant (w : World) (p : String) (d : Nat) :
    1 ≤ (detect_model_config w p d).1 ∧
      ((detect_model_config w p d).2.2 ≠ [] →
        (detect_model_config w p d).2.1 = (detect_model_config w p d).2.2.length) := by
  unfold detect_model_config
  cases hm : loadMetadataDoc w p with
  | error e => simp
  | ok metadata =>
    dsimp only
    cases he : extractConfig metadata with
    | error e => simp
    | ok r =>
      exact ⟨(extractConfig_shape metadata r he).1,
        fun _ => (extractConfig_shape metadata r he).2⟩

theorem embodiment_config_invariant_witness :
    1 ≤ (detect_model_config wFront "m" 2).1 ∧
      (detect_model_config wFront "m" 2).2.1 =
        (detect_model_config wFront "m" 2).2.2.length :=
  ⟨(embodiment_config_invariant wFront "m" 2).1,
   (embodiment_config_invariant wFront "m" 2).2 (by decide)⟩

/-- C4: a fatal NotFound error is raised, before any embodiment
configuration is produced, exactly when either the reference is classified
as a local path and the path does not exist, or it is classified as a
remote repository id and the existence check confirms non-existence
(`repo_exists` returns `ok false`); when the existence check itself fails,
the launcher assumes the repository valid and proceeds with resolution. -/
theorem notFound_characterization (w : World) (p : String) (d : Nat) :
    (∃ msg, mainResolve w p d = LaunchResult.notFound msg) ↔
      ((is_huggingface_repo w.path_exists p = true ∧
          w.repo_exists p = Except.ok false) ∨
       (is_huggingface_repo w.path_exists p = false ∧
          w.path_exists p = false)) := by
  unfold mainResolve validate_huggingface_repo
  cases hf : is_huggingface_repo w.path_exists p with
  | true =>
    cases hre : w.repo_exists p with
    | error e =>
      simp [buildDataGen_not_notFound]
    | ok b =>
      cases b with
      | true => simp [buildDataGen_not_notFound]
      | false => simp
  | false =>
    cases hpe : w.path_exists p with
    | true => simp [buildDataGen_not_notFound]
    | false => simp

/-- C3 counterexample: a metadata file that parses as the empty JSON
object — i.e. the `modalities` field is missing — does not produce the
fallback triple `(1, hinted default, [])`: with hint 2 the result is
`(1, 0, [])`, so a "missing fields" document is not mapped to the
caller-supplied camera default as the claim states. -/
theorem missing_fields_not_fallback_cex :
    detect_model_config wEmptyJson "m" 2 = (1, 0, []) ∧
      detect_model_config wEmptyJson "m" 2 ≠ (1, 2, []) := by decide

/-- C3 amended: if obtaining the parsed metadata document fails in any
way (file missing, unreadable, malformed JSON, I/O or download error),
`detect_model_config` never raises and returns exactly the fallback
triple `(num_arms = 1, num_cams = caller-supplied default, video_keys =
[])`, and the launcher then builds the Indexed scheme from those values.
(A merely missing field is not such a failure: it defaults to an empty
object and yields `num_cams = 0`, see C10.) -/
theorem metadata_load_failure_fallback (w : World) (p : String) (d : Nat)
    (h : loadMetadataDoc w p = Except.error ()) :
    detect_model_config w p d = (1, d, []) ∧
      (∀ g, mainResolve w p d = LaunchResult.ok g → g = DataGen.indexed 1 d) := by
  have hd : detect_model_config w p d = (1, d, []) := detect_eq_fallback w p d h
  refine ⟨hd, fun g hg => ?_⟩
  have hb := mainResolve_ok_imp_build w p d g hg
  rw [buildDataGen_eq_ite, hd] at hb
  simp at hb
  exact hb.symm

theorem metadata_load_failure_fallback_witness :
    detect_model_config wReadFail "m" 2 = (1, 2, []) ∧
      mainResolve wReadFail "m" 2 = LaunchResult.ok (DataGen.indexed 1 2) :=
  ⟨(metadata_load_failure_fallback wReadFail "m" 2 rfl).1, rfl⟩

/-- C1 counterexample: a syntactically valid repository id whose
materialization fails is not guaranteed to produce a fatal error: in a
world where the existence check itself raises (so validation assumes the
repo valid) and `snapshot_download` then fails, resolution silently
returns the fallback configuration `Indexed(1, hinted default)` instead
of propagating a "repository not found/not accessible" error. -/
theorem materialization_failure_fallback_cex :
    is_huggingface_repo wSnapFail.path_exists "ns/name" = true ∧
      wSnapFail.snapshot_download "ns/name" = Except.error () ∧
      mainResolve wSnapFail "ns/name" 2 = LaunchResult.ok (DataGen.indexed 1 2) :=
  ⟨rfl, rfl, rfl⟩

/-- C1 amended: for a reference classified as a remote repository id, a
fatal "repository not found or not accessible" error is raised exactly
when the existence check confirms non-existence; if validation passes
(including when the check itself fails and the repo is assumed valid) and
the actual materialization (`snapshot_download`) then fails, the failure
is swallowed by `detect_model_config` and resolution yields the fallback
`Indexed(1, hinted default)` configuration. -/
theorem remote_validate_then_materialize (w : World) (p : String) (d : Nat)
    (hf : is_huggingface_repo w.path_exists p = true) :
    (w.repo_exists p = Except.ok false →
      mainResolve w p d = LaunchResult.notFound
        ("HuggingFace repository " ++ p ++ " not found or not accessible.")) ∧
    (validate_huggingface_repo w p = true →
      w.snapshot_download p = Except.error () →
      mainResolve w p d = LaunchResult.ok (DataGen.indexed 1 d)) := by
  constructor
  · intro h1
    have hv : validate_huggingface_repo w p = false := by
      unfold validate_huggingface_repo
      rw [h1]
    unfold mainResolve
    rw [hf, hv]
    rfl
  · intro h2 h3
    have hl : loadMetadataDoc w p = Except.error () := by
      unfold loadMetadataDoc
      rw [hf, h3]
      rfl
    have hd : detect_model_config w p d = (1, d, []) := detect_eq_fallback w p d hl
    have hb : buildDataGen w p d = LaunchResult.ok (DataGen.indexed 1 d) := by
      rw [buildDataGen_eq_ite, hd]
      rfl
    unfold mainResolve
    rw [hf, h2]
    exact hb

theorem remote_validate_then_materialize_witness :
    mainResolve wRepoMissing "ns/name" 2 = LaunchResult.notFound
        ("HuggingFace repository " ++ "ns/name" ++ " not found or not accessible.") ∧
      mainResolve wSnapFail "ns/name" 2 =
        LaunchResult.ok (DataGen.indexed 1 2) :=
  ⟨(remote_validate_then_materialize wRepoMissing "ns/name" 2 rfl).1 rfl,
   (remote_validate_then_materialize wSnapFail "ns/name" 2 rfl).2 rfl rfl⟩

/-- C5: the Named scheme is chosen iff the resolved `video_keys` list is
non-empty, and then its keys are exactly one "video."-prefixed key per
detected video channel plus `state.arm_i` / `action.arm_i` for every
`i < num_arms` (independent of the metadata action-channel names); when
`video_keys` is empty the Indexed scheme carrying `num_arms` and
`num_cams` is chosen instead. -/
theorem scheme_choice (w : World) (p : String) (d : Nat) (g : DataGen)
    (h : mainResolve w p d = LaunchResult.ok g) :
    ((detect_model_config w p d).2.2 ≠ [] →
       g = DataGen.named ((detect_model_config w p d).2.2.map prefixVideoKey)
             (state_keys (detect_model_config w p d).1)
             (action_keys (detect_model_config w p d).1)) ∧
    ((detect_model_config w p d).2.2 = [] →
       g = DataGen.indexed (detect_model_config w p d).1
             (detect_model_config w p d).2.1) := by
  have hb := mainResolve_ok_imp_build w p d g h
  rw [buildDataGen_eq_ite] at hb
  by_cases hv : (detect_model_config w p d).2.2 = []
  · rw [if_neg (not_not_intro hv)] at hb
    exact ⟨fun hne => absurd hv hne, fun _ => (LaunchResult.ok.inj hb).symm⟩
  · rw [if_pos hv] at hb
    exact ⟨fun _ => (LaunchResult.ok.inj hb).symm, fun heq => absurd heq hv⟩

theorem scheme_choice_witness :
    DataGen.named ["video.front"] ["state.arm_0"] ["action.arm_0"] =
      DataGen.named ((detect_model_config wFront "m" 2).2.2.map prefixVideoKey)
        (state_keys (detect_model_config wFront "m" 2).1)
        (action_keys (detect_model_config wFront "m" 2).1) :=
  (scheme_choice wFront "m" 2
      (DataGen.named ["video.front"] ["state.arm_0"] ["action.arm_0"]) rfl).1
    (by decide)

/-- C6: for every successfully parsed and extracted metadata document,
the resolved `num_arms` equals the count of `modalities.action` keys
whose name starts with the literal prefix "arm", except that when this
count is zero `num_arms` is 1. -/
theorem num_arms_from_action_keys (j mod act : JsonValue) (aks : List String)
    (r : Nat × Nat × List String)
    (h1 : dictGet j "modalities" (JsonValue.obj []) = Except.ok mod)
    (h2 : dictGet mod "action" (JsonValue.obj []) = Except.ok act)
    (h3 : dictKeys act = Except.ok aks)
    (h4 : extractConfig j = Except.ok r) :
    r.1 = if (aks.filter (fun k => startswith k "arm")).length = 0 then 1
          else (aks.filter (fun k => startswith k "arm")).length := by
  unfold extractConfig at h4
  rw [h1] at h4
  dsimp only at h4
  cases hv : dictGet mod "video" (JsonValue.obj []) with
  | error e => rw [hv] at h4; exact Except.noConfusion h4
  | ok video =>
    rw [hv] at h4
    dsimp only at h4
    cases hvk : dictKeys video with
    | error e => rw [hvk] at h4; exact Except.noConfusion h4
    | ok vks =>
      rw [hvk] at h4
      dsimp only at h4
      rw [h2] at h4
      dsimp only at h4
      rw [h3] at h4
      dsimp only at h4
      injection h4 with h4
      rw [← h4]

theorem num_arms_from_action_keys_witness :
    ((2, 1, ["front"]) : Nat × Nat × List String).1 =
      (if ((["arm_0", "arm_1", "gripper"].filter
          (fun k => startswith k "arm")).length = 0) then 1
       else (["arm_0", "arm_1", "gripper"].filter
          (fun k => startswith k "arm")).length) :=
  num_arms_from_action_keys jSample
    (JsonValue.obj
      [("video", JsonValue.obj [("front", JsonValue.null)]),
       ("action", JsonValue.obj
         [("arm_0", JsonValue.null), ("arm_1", JsonValue.null),
          ("gripper", JsonValue.null)])])
    (JsonValue.obj
      [("arm_0", JsonValue.null), ("arm_1", JsonValue.null),
       ("gripper", JsonValue.null)])
    ["arm_0", "arm_1", "gripper"] (2, 1, ["front"]) rfl rfl rfl rfl

/-- C10: if the metadata parses but contains no `modalities.video`
entries (key absent or empty object), resolution returns `num_cams = 0`
and `video_keys = []` while `num_arms` is still derived from the action
keys; the hinted camera count `d` is ignored (the result holds for every
`d`), and the launcher builds the Indexed scheme with `num_cams = 0`. -/
theorem no_video_entries_num_cams_zero (w : World) (p : String) (d : Nat)
    (m mod act : JsonValue) (aks : List String)
    (hm : loadMetadataDoc w p = Except.ok m)
    (h1 : dictGet m "modalities" (JsonValue.obj []) = Except.ok mod)
    (h2 : dictGet mod "video" (JsonValue.obj []) = Except.ok (JsonValue.obj []))
    (h3 : dictGet mod "action" (JsonValue.obj []) = Except.ok act)
    (h4 : dictKeys act = Except.ok aks) :
    detect_model_config w p d =
      ((if (aks.filter (fun k => startswith k "arm")).length = 0 then 1
        else (aks.filter (fun k => startswith k "arm")).length), 0, []) ∧
    (∀ g, mainResolve w p d = LaunchResult.ok g →
      g = DataGen.indexed
        (if (aks.filter (fun k => startswith k "arm")).length = 0 then 1
         else (aks.filter (fun k => startswith k "arm")).length) 0) := by
  have he : extractConfig m = Except.ok
      ((if (aks.filter (fun k => startswith k "arm")).length = 0 then 1
        else (aks.filter (fun k => startswith k "arm")).length), 0, []) := by
    unfold extractConfig
    rw [h1]
    dsimp only
    rw [h2]
    dsimp only
    rw [show dictKeys (JsonValue.obj []) = Except.ok ([] : List String) from rfl]
    dsimp only
    rw [h3]
    dsimp only
    rw [h4]
    dsimp only
    rfl
  have hd := detect_eq_of_ok w p d m _ hm he
  refine ⟨hd, fun g hg => ?_⟩
  have hb := mainResolve_ok_imp_build w p d g hg
  rw [buildDataGen_eq_ite] at hb
  have h22 : (detect_model_config w p d).2.2 = ([] : List String) := by rw [hd]
  rw [if_neg (not_not_intro h22)] at hb
  have hinj := LaunchResult.ok.inj hb
  rw [← hinj, hd]

theorem no_video_entries_num_cams_zero_witness :
    detect_model_config wNoVideo "m" 5 = (2, 0, []) ∧
      mainResolve wNoVideo "m" 5 = LaunchResult.ok (DataGen.indexed 2 0) :=
  ⟨(no_video_entries_num_cams_zero wNoVideo "m" 5
      (JsonValue.obj
        [("modalities", JsonValue.obj
          [("action", JsonValue.obj
            [("arm_0", JsonValue.null), ("arm_1", JsonValue.null)])])])
      (JsonValue.obj
        [("action", JsonValue.obj
          [("arm_0", JsonValue.null), ("arm_1", JsonValue.null)])])
      (JsonValue.obj [("arm_0", JsonValue.null), ("arm_1", JsonValue.null)])
      ["arm_0", "arm_1"] rfl rfl rfl rfl rfl).1,
   rfl⟩
